import Mathlib

/- Shallow embedding of the OMPL constraint-modelling code of this repository
(src/moveit_planners/ompl/ompl_interface/src/detail/ompl_constraints.cpp and
its header, src/unnamed/part_000).  C++ `double` scalars are modelled as
rationals wherever the source computes ordered-field arithmetic; the IEEE
infinity sentinel used by the bound-extraction functions is modelled by an
extended scalar type, and the transcendental arithmetic of the orientation
variant is modelled over the reals with division by zero made explicit. -/

namespace OmplInterface

/-- Upper and lower bound on a scalar value: struct `ompl_interface::Bounds`
(header lines 68-95), at the evaluator side where all values involved are
ordinary finite doubles, modelled as rationals. -/
structure Bounds where
  lower : ℚ
  upper : ℚ
deriving DecidableEq

/-- Distance to the region inside the bounds: `Bounds::penalty`
(ompl_constraints.cpp lines 48-56). -/
def Bounds.penalty (b : Bounds) (value : ℚ) : ℚ :=
  if value < b.lower then b.lower - value
  else if value > b.upper then value - b.upper
  else 0

/-- Subgradient of the penalty function: `Bounds::derivative`
(ompl_constraints.cpp lines 58-66). -/
def Bounds.derivative (b : Bounds) (value : ℚ) : ℚ :=
  if value < b.lower then -1
  else if value > b.upper then 1
  else 0

lemma Bounds.penalty_of_lt {b : Bounds} {v : ℚ} (h : v < b.lower) :
    b.penalty v = b.lower - v := by
  unfold Bounds.penalty
  rw [if_pos h]

lemma Bounds.penalty_of_mem {b : Bounds} {v : ℚ} (h1 : b.lower ≤ v) (h2 : v ≤ b.upper) :
    b.penalty v = 0 := by
  unfold Bounds.penalty
  rw [if_neg (not_lt.mpr h1), if_neg (not_lt.mpr h2)]

lemma Bounds.penalty_of_gt {b : Bounds} {v : ℚ} (hlu : b.lower ≤ b.upper)
    (h : b.upper < v) : b.penalty v = v - b.upper := by
  unfold Bounds.penalty
  rw [if_neg (not_lt.mpr (le_of_lt (lt_of_le_of_lt hlu h))), if_pos h]

lemma Bounds.penalty_eq_zero_iff (b : Bounds) (v : ℚ) :
    b.penalty v = 0 ↔ b.lower ≤ v ∧ v ≤ b.upper := by
  unfold Bounds.penalty
  split_ifs with h1 h2
  · constructor
    · intro h
      exfalso
      linarith
    · rintro ⟨h, -⟩
      linarith
  · constructor
    · intro h
      exfalso
      linarith
    · rintro ⟨-, h⟩
      linarith
  · constructor
    · intro _
      exact ⟨le_of_not_lt h1, le_of_not_lt h2⟩
    · intro _
      rfl

lemma Bounds.penalty_pos (b : Bounds) (v : ℚ)
    (h : v < b.lower ∨ b.upper < v) : 0 < b.penalty v := by
  unfold Bounds.penalty
  split_ifs with h1 h2
  · linarith
  · linarith
  · rcases h with h | h
    · exact absurd h h1
    · exact absurd h h2

lemma Bounds.derivative_of_mem {b : Bounds} {v : ℚ} (h1 : b.lower ≤ v) (h2 : v ≤ b.upper) :
    b.derivative v = 0 := by
  unfold Bounds.derivative
  rw [if_neg (not_lt.mpr h1), if_neg (not_lt.mpr h2)]

lemma Bounds.derivative_of_lt {b : Bounds} {v : ℚ} (h : v < b.lower) :
    b.derivative v = -1 := by
  unfold Bounds.derivative
  rw [if_pos h]

lemma Bounds.derivative_of_gt {b : Bounds} {v : ℚ} (hlu : b.lower ≤ b.upper)
    (h : b.upper < v) : b.derivative v = 1 := by
  unfold Bounds.derivative
  rw [if_neg (not_lt.mpr (le_of_lt (lt_of_le_of_lt hlu h))), if_pos h]

/-- C2: for every Bounds value with lower ≤ upper and every value v,
penalty(v) = 0 when lower ≤ v ≤ upper, penalty(v) = lower − v > 0 when
v < lower, penalty(v) = v − upper > 0 when v > upper; derivative(v) = −1
below, +1 above, and 0 inside the bounds, including exactly at the two
boundary values. -/
theorem c2_bounds_penalty_derivative (b : Bounds) (v : ℚ) (hlu : b.lower ≤ b.upper) :
    (b.lower ≤ v ∧ v ≤ b.upper → b.penalty v = 0 ∧ b.derivative v = 0)
    ∧ (v < b.lower → b.penalty v = b.lower - v ∧ 0 < b.penalty v ∧ b.derivative v = -1)
    ∧ (b.upper < v → b.penalty v = v - b.upper ∧ 0 < b.penalty v ∧ b.derivative v = 1)
    ∧ b.derivative b.lower = 0 ∧ b.derivative b.upper = 0 := by
  refine ⟨?_, ?_, ?_, ?_, ?_⟩
  · rintro ⟨h1, h2⟩
    exact ⟨Bounds.penalty_of_mem h1 h2, Bounds.derivative_of_mem h1 h2⟩
  · intro h
    refine ⟨Bounds.penalty_of_lt h, Bounds.penalty_pos _ _ (Or.inl h), Bounds.derivative_of_lt h⟩
  · intro h
    exact ⟨Bounds.penalty_of_gt hlu h, Bounds.penalty_pos _ _ (Or.inr h),
      Bounds.derivative_of_gt hlu h⟩
  · exact Bounds.derivative_of_mem le_rfl hlu
  · exact Bounds.derivative_of_mem hlu le_rfl

/-- Witness for C2 at the concrete bound [0, 2] and value 1 (inside), with the
lower ≤ upper hypothesis discharged; the outlying cases are exercised through
the implications at values 1 (inside), and by deciding the instantiated
statement for values below and above via the same theorem at bound [0, 2]. -/
theorem c2_bounds_penalty_derivative_witness :
    (Bounds.mk 0 2).lower ≤ (Bounds.mk 0 2).upper
    ∧ ((Bounds.mk 0 2).lower ≤ (1 : ℚ) ∧ (1 : ℚ) ≤ (Bounds.mk 0 2).upper
        → (Bounds.mk 0 2).penalty 1 = 0 ∧ (Bounds.mk 0 2).derivative 1 = 0)
    ∧ ((1 : ℚ) < (Bounds.mk 0 2).lower
        → (Bounds.mk 0 2).penalty 1 = (Bounds.mk 0 2).lower - 1
          ∧ 0 < (Bounds.mk 0 2).penalty 1 ∧ (Bounds.mk 0 2).derivative 1 = -1)
    ∧ ((Bounds.mk 0 2).upper < (1 : ℚ)
        → (Bounds.mk 0 2).penalty 1 = 1 - (Bounds.mk 0 2).upper
          ∧ 0 < (Bounds.mk 0 2).penalty 1 ∧ (Bounds.mk 0 2).derivative 1 = 1)
    ∧ (Bounds.mk 0 2).derivative (Bounds.mk 0 2).lower = 0
    ∧ (Bounds.mk 0 2).derivative (Bounds.mk 0 2).upper = 0 :=
  ⟨by decide, c2_bounds_penalty_derivative (Bounds.mk 0 2) 1 (by decide)⟩

/-- Generic penalty composition `BaseConstraint::function`
(ompl_constraints.cpp lines 110-118): for each i below `bounds_.size()`,
`out[i] = bounds_[i].penalty(current_values[i])` where `current_values`
is the error vector produced by the variant `calcError` extension point.
The error vector is a parameter here because `calcError` delegates to the
external kinematics collaborator; reads past its end (undefined behaviour
in the source) are totalised with a zero default. -/
def BaseConstraint.function (bounds : List Bounds) (errVals : List ℚ) : List ℚ :=
  List.ofFn fun i : Fin bounds.length => (bounds.get i).penalty (errVals.getD i.val 0)

/-- Generic penalty-derivative composition `BaseConstraint::jacobian`
(ompl_constraints.cpp lines 120-129): for each i below `bounds_.size()`,
`out.row(i) = bounds_[i].derivative(constraint_error[i]) * robot_jacobian.row(i)`,
with the error vector and error-Jacobian rows supplied by the variant
extension points. -/
def BaseConstraint.jacobian (bounds : List Bounds) (errVals : List ℚ)
    (robotJacobian : List (List ℚ)) : List (List ℚ) :=
  List.ofFn fun i : Fin bounds.length =>
    (robotJacobian.getD i.val []).map fun x =>
      (bounds.get i).derivative (errVals.getD i.val 0) * x

lemma BaseConstraint.function_getD (bounds : List Bounds) (errVals : List ℚ)
    {i : ℕ} (hi : i < bounds.length) :
    (BaseConstraint.function bounds errVals).getD i 0
      = (bounds.getD i (Bounds.mk 0 0)).penalty (errVals.getD i 0) := by
  unfold BaseConstraint.function
  rw [List.getD_eq_getElem _ _ (by simpa [List.length_ofFn] using hi),
    List.getElem_ofFn, List.getD_eq_getElem _ _ hi]
  simp [List.get_eq_getElem]

lemma BaseConstraint.jacobian_getD (bounds : List Bounds) (errVals : List ℚ)
    (robotJacobian : List (List ℚ)) {i : ℕ} (hi : i < bounds.length) :
    (BaseConstraint.jacobian bounds errVals robotJacobian).getD i []
      = (robotJacobian.getD i []).map fun x =>
          (bounds.getD i (Bounds.mk 0 0)).derivative (errVals.getD i 0) * x := by
  unfold BaseConstraint.jacobian
  rw [List.getD_eq_getElem _ _ (by simpa [List.length_ofFn] using hi),
    List.getElem_ofFn, List.getD_eq_getElem _ _ hi]
  simp [List.get_eq_getElem]

lemma BaseConstraint.function_eq_replicate_iff (bounds : List Bounds) (errVals : List ℚ) :
    BaseConstraint.function bounds errVals = List.replicate bounds.length 0
      ↔ ∀ j : Fin bounds.length,
          (bounds.get j).lower ≤ errVals.getD j.val 0
          ∧ errVals.getD j.val 0 ≤ (bounds.get j).upper := by
  unfold BaseConstraint.function
  rw [List.eq_replicate_iff]
  constructor
  · rintro ⟨-, h⟩ j
    exact (Bounds.penalty_eq_zero_iff _ _).mp
      (h _ ((List.mem_ofFn _ _).mpr ⟨j, rfl⟩))
  · intro h
    refine ⟨List.length_ofFn _, fun b hb => ?_⟩
    obtain ⟨j, hj⟩ := (List.mem_ofFn _ _).mp hb
    rw [← hj]
    exact (Bounds.penalty_eq_zero_iff _ _).mpr (h j)

/-- C1: for every constraint whose variant keeps the base evaluation,
`function` returns the vector whose i-th entry is
`bounds_[i].penalty(calcError(q)[i])`; it is the zero vector exactly when
every error component lies within its bound, and is strictly positive in
every violated component; `jacobian` returns the matrix whose i-th row is
`bounds_[i].derivative(calcError(q)[i])` times row i of
`calcErrorJacobian(q)`, so rows whose error component is strictly inside
its bound are all-zero. -/
theorem c1_base_function_jacobian (bounds : List Bounds) (errVals : List ℚ)
    (robotJacobian : List (List ℚ)) (i : ℕ) (hi : i < bounds.length) :
    (BaseConstraint.function bounds errVals).getD i 0
      = (bounds.getD i (Bounds.mk 0 0)).penalty (errVals.getD i 0)
    ∧ (BaseConstraint.function bounds errVals = List.replicate bounds.length 0
        ↔ ∀ j : Fin bounds.length,
            (bounds.get j).lower ≤ errVals.getD j.val 0
            ∧ errVals.getD j.val 0 ≤ (bounds.get j).upper)
    ∧ (errVals.getD i 0 < (bounds.getD i (Bounds.mk 0 0)).lower
        ∨ (bounds.getD i (Bounds.mk 0 0)).upper < errVals.getD i 0
        → 0 < (BaseConstraint.function bounds errVals).getD i 0)
    ∧ (BaseConstraint.jacobian bounds errVals robotJacobian).getD i []
      = ((robotJacobian.getD i []).map fun x =>
          (bounds.getD i (Bounds.mk 0 0)).derivative (errVals.getD i 0) * x)
    ∧ ((bounds.getD i (Bounds.mk 0 0)).lower < errVals.getD i 0
        ∧ errVals.getD i 0 < (bounds.getD i (Bounds.mk 0 0)).upper
        → ∀ x ∈ (BaseConstraint.jacobian bounds errVals robotJacobian).getD i [], x = 0) := by
  refine ⟨BaseConstraint.function_getD bounds errVals hi,
    BaseConstraint.function_eq_replicate_iff bounds errVals, ?_, ?_, ?_⟩
  · intro h
    rw [BaseConstraint.function_getD bounds errVals hi]
    exact Bounds.penalty_pos _ _ h
  · exact BaseConstraint.jacobian_getD bounds errVals robotJacobian hi
  · rintro ⟨h1, h2⟩ x hx
    rw [BaseConstraint.jacobian_getD bounds errVals robotJacobian hi] at hx
    obtain ⟨y, -, hy⟩ := List.mem_map.mp hx
    rw [← hy, Bounds.derivative_of_mem (le_of_lt h1) (le_of_lt h2), zero_mul]

/-- Witness for C1 at bounds [(-1, 1), (0, 2)], error vector [5, 1] and a
concrete 2×2 error Jacobian, at row i = 0 (a violated component): the
penalty entry, its strict positivity, and the scaled Jacobian row are all
produced by the claim theorem with its hypotheses discharged. -/
theorem c1_base_function_jacobian_witness :
    0 < ([Bounds.mk (-1) 1, Bounds.mk 0 2] : List Bounds).length
    ∧ (BaseConstraint.function [Bounds.mk (-1) 1, Bounds.mk 0 2] [5, 1]).getD 0 0
      = (([Bounds.mk (-1) 1, Bounds.mk 0 2] : List Bounds).getD 0 (Bounds.mk 0 0)).penalty
          (([5, 1] : List ℚ).getD 0 0)
    ∧ 0 < (BaseConstraint.function [Bounds.mk (-1) 1, Bounds.mk 0 2] [5, 1]).getD 0 0
    ∧ (BaseConstraint.jacobian [Bounds.mk (-1) 1, Bounds.mk 0 2] [5, 1]
        [[2, 7], [3, 4]]).getD 0 []
      = ((([[2, 7], [3, 4]] : List (List ℚ)).getD 0 []).map fun x =>
          (([Bounds.mk (-1) 1, Bounds.mk 0 2] : List Bounds).getD 0 (Bounds.mk 0 0)).derivative
            (([5, 1] : List ℚ).getD 0 0) * x) := by
  have h := c1_base_function_jacobian [Bounds.mk (-1) 1, Bounds.mk 0 2] [5, 1]
    [[2, 7], [3, 4]] 0 (by decide)
  exact ⟨by decide, h.1, h.2.2.1 (Or.inr (by decide)), h.2.2.2.1⟩

/-- Extended scalar for the few places where the source manipulates the IEEE
infinity value explicitly: the bound-extraction functions replace a `-1`
extent by `std::numeric_limits<double>::infinity()`. All other scalars in the
embedding stay rational. -/
inductive Dbl where
  | fin (q : ℚ)
  | posInf
  | negInf
deriving DecidableEq

/-- Negation on the extended scalar (IEEE negation of ±infinity). -/
def Dbl.neg : Dbl → Dbl
  | Dbl.fin q => Dbl.fin (-q)
  | Dbl.posInf => Dbl.negInf
  | Dbl.negInf => Dbl.posInf

/-- Halving on the extended scalar (IEEE division of ±infinity by 2). -/
def Dbl.half : Dbl → Dbl
  | Dbl.fin q => Dbl.fin (q / 2)
  | Dbl.posInf => Dbl.posInf
  | Dbl.negInf => Dbl.negInf

/-- The `ompl_interface::Bounds` struct at the bound-extraction side, where
its two doubles may hold the IEEE infinities introduced by the `-1`
sentinel substitution (header lines 68-70 with the values produced at
ompl_constraints.cpp lines 362-388). -/
structure DBounds where
  lower : Dbl
  upper : Dbl
deriving DecidableEq

/-- Subset of `geometry_msgs::Point` used by the source: a position. -/
structure Point3 where
  x : ℚ
  y : ℚ
  z : ℚ
deriving DecidableEq

/-- Subset of `geometry_msgs::Quaternion`: the stored target orientation.
The embedding carries the quaternion opaquely; the external Eigen conversion
to a rotation matrix is out of scope, so evaluation-time theorems quantify
over the resulting rotation matrix. -/
structure QuatMsg where
  x : ℚ
  y : ℚ
  z : ℚ
  w : ℚ
deriving DecidableEq

/-- Subset of `geometry_msgs::Pose` used by the source. -/
structure PoseMsg where
  position : Point3
  orientation : QuatMsg
deriving DecidableEq

/-- Subset of `shape_msgs::SolidPrimitive`: the box dimension list. -/
structure SolidPrimitiveMsg where
  dimensions : List ℚ
deriving DecidableEq

/-- Subset of `moveit_msgs::BoundingVolume` used by the source. -/
structure BoundingVolumeMsg where
  primitives : List SolidPrimitiveMsg
  primitive_poses : List PoseMsg
deriving DecidableEq

/-- Subset of `moveit_msgs::PositionConstraint` used by the source. -/
structure PositionConstraintMsg where
  link_name : String
  constraint_region : BoundingVolumeMsg
deriving DecidableEq

/-- Subset of `moveit_msgs::OrientationConstraint` used by the source. -/
structure OrientationConstraintMsg where
  link_name : String
  orientation : QuatMsg
  absolute_x_axis_tolerance : ℚ
  absolute_y_axis_tolerance : ℚ
  absolute_z_axis_tolerance : ℚ
deriving DecidableEq

/-- Subset of `moveit_msgs::Constraints` used by the source. -/
structure ConstraintsMsg where
  name : String
  position_constraints : List PositionConstraintMsg
  orientation_constraints : List OrientationConstraintMsg
deriving DecidableEq

/-- The `-1 -> infinity` sentinel substitution applied element-wise to the
dimension values (ompl_constraints.cpp lines 367-371 and 382-386). -/
def sentinelToInf (d : ℚ) : Dbl :=
  if d = -1 then Dbl.posInf else Dbl.fin d

/-- `positionConstraintMsgToBoundVector` (ompl_constraints.cpp lines
362-374): reads the first primitive (`.at(0)`, which throws when absent,
modelled by `none`), substitutes the sentinel, and emits
`Bounds(-dims[i]/2, dims[i]/2)` for the three box extents; out-of-range
reads of the dimension list are the remaining `none` branches. -/
def positionConstraintMsgToBoundVector (pos_con : PositionConstraintMsg) :
    Option (List DBounds) := do
  let prim ← pos_con.constraint_region.primitives[0]?
  let dims := prim.dimensions.map sentinelToInf
  let d0 ← dims[0]?
  let d1 ← dims[1]?
  let d2 ← dims[2]?
  pure [⟨d0.neg.half, d0.half⟩, ⟨d1.neg.half, d1.half⟩, ⟨d2.neg.half, d2.half⟩]

/-- `orientationConstraintMsgToBoundVector` (ompl_constraints.cpp lines
376-388): substitutes the sentinel into the three axis tolerances and emits
`Bounds(-dims[i], dims[i])` per axis. -/
def orientationConstraintMsgToBoundVector (ori_con : OrientationConstraintMsg) :
    List DBounds :=
  let d0 := sentinelToInf ori_con.absolute_x_axis_tolerance
  let d1 := sentinelToInf ori_con.absolute_y_axis_tolerance
  let d2 := sentinelToInf ori_con.absolute_z_axis_tolerance
  [⟨d0.neg, d0⟩, ⟨d1.neg, d1⟩, ⟨d2.neg, d2⟩]

/-- Modelled from the spec: the per-extent bound the specification describes
for position extraction, "map extent value −1 to +∞ ... emit
Bound(-extent/2, extent/2) per axis". Used as the comparandum for C6. -/
def specPositionExtentBound (d : ℚ) : DBounds :=
  if d = -1 then ⟨Dbl.negInf, Dbl.posInf⟩ else ⟨Dbl.fin (-(d / 2)), Dbl.fin (d / 2)⟩

/-- Modelled from the spec: the per-tolerance bound the specification
describes for orientation extraction, "same −1→∞ sentinel mapping; emit
Bound(−tolerance, tolerance) per axis". Used as the comparandum for C6. -/
def specOrientationToleranceBound (t : ℚ) : DBounds :=
  if t = -1 then ⟨Dbl.negInf, Dbl.posInf⟩ else ⟨Dbl.fin (-t), Dbl.fin t⟩

lemma sentinel_halfBound (d : ℚ) :
    DBounds.mk (sentinelToInf d).neg.half (sentinelToInf d).half
      = specPositionExtentBound d := by
  unfold sentinelToInf specPositionExtentBound
  split_ifs with h
  · rfl
  · simp [Dbl.neg, Dbl.half, neg_div]

lemma sentinel_symBound (t : ℚ) :
    DBounds.mk (sentinelToInf t).neg (sentinelToInf t)
      = specOrientationToleranceBound t := by
  unfold sentinelToInf specOrientationToleranceBound
  split_ifs with h
  · rfl
  · simp [Dbl.neg]

/-- C6: position extraction maps each of the three box extents d to the
bound (−d/2, d/2) after replacing a −1 extent by +∞ (so a −1 extent yields
(−∞, +∞) and an extent of 2.0 yields (−1.0, 1.0)), and orientation
extraction maps each axis tolerance t to (−t, t) with the same sentinel
replacement. -/
theorem c6_bound_extraction (pos_con : PositionConstraintMsg)
    (prim : SolidPrimitiveMsg) (d0 d1 d2 : ℚ) (rest : List ℚ)
    (hprim : pos_con.constraint_region.primitives[0]? = some prim)
    (hdims : prim.dimensions = d0 :: d1 :: d2 :: rest) :
    positionConstraintMsgToBoundVector pos_con
      = some [specPositionExtentBound d0, specPositionExtentBound d1,
          specPositionExtentBound d2]
    ∧ specPositionExtentBound (-1) = ⟨Dbl.negInf, Dbl.posInf⟩
    ∧ specPositionExtentBound 2 = ⟨Dbl.fin (-1), Dbl.fin 1⟩
    ∧ (∀ ori_con : OrientationConstraintMsg,
        orientationConstraintMsgToBoundVector ori_con
          = [specOrientationToleranceBound ori_con.absolute_x_axis_tolerance,
              specOrientationToleranceBound ori_con.absolute_y_axis_tolerance,
              specOrientationToleranceBound ori_con.absolute_z_axis_tolerance])
    ∧ specOrientationToleranceBound (-1) = ⟨Dbl.negInf, Dbl.posInf⟩ := by
  refine ⟨?_, by simp [specPositionExtentBound], by norm_num [specPositionExtentBound],
    ?_, by simp [specOrientationToleranceBound]⟩
  · unfold positionConstraintMsgToBoundVector
    rw [hprim]
    simp only [Option.bind_eq_bind, Option.some_bind, hdims, List.map_cons,
      List.getElem?_cons_zero, List.getElem?_cons_succ]
    simp [sentinel_halfBound]
  · intro ori_con
    unfold orientationConstraintMsgToBoundVector
    simp [sentinel_symBound]

/-- Witness for C6 on a concrete position constraint description whose box
extents are [-1, 2, 3], discharging the first-primitive and
three-dimension hypotheses. -/
theorem c6_bound_extraction_witness :
    (PositionConstraintMsg.mk "tool0"
        (BoundingVolumeMsg.mk [SolidPrimitiveMsg.mk [-1, 2, 3]]
          [])).constraint_region.primitives[0]? = some (SolidPrimitiveMsg.mk [-1, 2, 3])
    ∧ positionConstraintMsgToBoundVector
        (PositionConstraintMsg.mk "tool0"
          (BoundingVolumeMsg.mk [SolidPrimitiveMsg.mk [-1, 2, 3]] []))
      = some [specPositionExtentBound (-1), specPositionExtentBound 2,
          specPositionExtentBound 3] :=
  ⟨by decide,
    (c6_bound_extraction
      (PositionConstraintMsg.mk "tool0"
        (BoundingVolumeMsg.mk [SolidPrimitiveMsg.mk [-1, 2, 3]] []))
      (SolidPrimitiveMsg.mk [-1, 2, 3]) (-1) 2 3 [] (by decide) (by decide)).1⟩

/-- Threshold below which a box extent is classified as an equality
constraint: `equality_constraint_threshold_` (header lines 310 and 355). -/
def equality_constraint_threshold : ℚ := 1 / 1000

/-- Value of `getTolerance()` for a constraint constructed without an
explicit tolerance argument. The OMPL base class is an external
collaborator; the default `ompl::magic::CONSTRAINT_PROJECTION_TOLERANCE
= 1e-4` is recorded in the header comments (header lines 296-308). -/
def constraint_projection_tolerance : ℚ := 1 / 10000

/-- State stored by `PositionConstraint::parseConstraintMsg`
(ompl_constraints.cpp lines 140-158). -/
structure ParsedPositionConstraint where
  bounds : List DBounds
  target_position : Point3
  target_orientation : QuatMsg
  link_name : String
deriving DecidableEq

/-- State stored by `EqualityPositionConstraint::parseConstraintMsg`
(ompl_constraints.cpp lines 179-216). -/
structure ParsedEqualityPositionConstraint where
  is_dim_constrained : List Bool
  target_position : Point3
  target_orientation : QuatMsg
  link_name : String
deriving DecidableEq

/-- State stored by `LinearSystemPositionConstraint::parseConstraintMsg`
(ompl_constraints.cpp lines 253-292). -/
structure ParsedLinearSystemPositionConstraint where
  is_dim_constrained : List Bool
  start_position : Point3
  end_position : Point3
  target_orientation : QuatMsg
  link_name : String
deriving DecidableEq

/-- State stored by `OrientationConstraint::parseConstraintMsg`
(ompl_constraints.cpp lines 331-343). -/
structure ParsedOrientationConstraint where
  bounds : List DBounds
  target_orientation : QuatMsg
  link_name : String
deriving DecidableEq

/-- Abbreviation of the ROS_ERROR diagnostic logged when a constrained
extent is below the evaluation tolerance (ompl_constraints.cpp lines
193-197 and 267-271). -/
def dimension_tolerance_error : String :=
  "Dimension of position constraint is smaller than the tolerance used to evaluate the constraints."

/-- The dimension-classification loop shared by
`EqualityPositionConstraint::parseConstraintMsg` (ompl_constraints.cpp
lines 186-201) and `LinearSystemPositionConstraint::parseConstraintMsg`
(lines 260-275): each extent below the threshold marks its dimension as
equality-constrained; an extent also below the evaluation tolerance logs an
error-level diagnostic (collected in the string list) but the loop carries
on; `is_dim_constrained_.at(i)` throws (`none`) only when the dimension
list is longer than the three-element mask. -/
def markConstrainedDims : List ℚ → ℕ → List Bool → List String →
    Option (List Bool × List String)
  | [], _, mask, errs => some (mask, errs)
  | d :: rest, i, mask, errs =>
    if d < equality_constraint_threshold then
      if i < mask.length then
        markConstrainedDims rest (i + 1) (mask.set i true)
          (if d < constraint_projection_tolerance then
            errs ++ [dimension_tolerance_error]
          else errs)
      else none
    else markConstrainedDims rest (i + 1) mask errs

/-- `PositionConstraint::parseConstraintMsg` (ompl_constraints.cpp lines
140-158): extracts the bound vector, the target position and orientation
from the first primitive pose, and the link name. `.at(0)` calls that
throw on an empty list are the `none` branches. -/
def PositionConstraint.parseConstraintMsg (c : ConstraintsMsg) :
    Option ParsedPositionConstraint := do
  let pc ← c.position_constraints[0]?
  let bounds ← positionConstraintMsgToBoundVector pc
  let pose ← pc.constraint_region.primitive_poses[0]?
  pure ⟨bounds, pose.position, pose.orientation, pc.link_name⟩

/-- `EqualityPositionConstraint::parseConstraintMsg` (ompl_constraints.cpp
lines 179-216): classifies the three dimensions by extent threshold
(collecting any error-level diagnostics), then extracts the target
position/orientation and link name. -/
def EqualityPositionConstraint.parseConstraintMsg (c : ConstraintsMsg) :
    Option (ParsedEqualityPositionConstraint × List String) := do
  let pc ← c.position_constraints[0]?
  let prim ← pc.constraint_region.primitives[0]?
  let me ← markConstrainedDims prim.dimensions 0 [false, false, false] []
  let pose ← pc.constraint_region.primitive_poses[0]?
  pure (⟨me.1, pose.position, pose.orientation, pc.link_name⟩, me.2)

/-- `LinearSystemPositionConstraint::parseConstraintMsg`
(ompl_constraints.cpp lines 253-292): same classification loop, then start
position from primitive pose 0, end position from primitive pose 1, and
the target orientation from primitive pose 0. -/
def LinearSystemPositionConstraint.parseConstraintMsg (c : ConstraintsMsg) :
    Option (ParsedLinearSystemPositionConstraint × List String) := do
  let pc ← c.position_constraints[0]?
  let prim ← pc.constraint_region.primitives[0]?
  let me ← markConstrainedDims prim.dimensions 0 [false, false, false] []
  let pose0 ← pc.constraint_region.primitive_poses[0]?
  let pose1 ← pc.constraint_region.primitive_poses[1]?
  pure (⟨me.1, pose0.position, pose1.position, pose0.orientation, pc.link_name⟩, me.2)

/-- `OrientationConstraint::parseConstraintMsg` (ompl_constraints.cpp lines
331-343): extracts the orientation bound vector, target orientation and
link name from the first orientation constraint. -/
def OrientationConstraint.parseConstraintMsg (c : ConstraintsMsg) :
    Option ParsedOrientationConstraint := do
  let oc ← c.orientation_constraints[0]?
  pure ⟨orientationConstraintMsgToBoundVector oc, oc.orientation, oc.link_name⟩

/-- The constraint object returned by the factory, tagged by the variant
class that was constructed and carrying the state its `parseConstraintMsg`
stored during `init`. -/
inductive OmplConstraintObj where
  | boundedPosition (p : ParsedPositionConstraint)
  | equalityPosition (p : ParsedEqualityPositionConstraint)
  | linearSystemPosition (p : ParsedLinearSystemPositionConstraint)
  | orientation (p : ParsedOrientationConstraint)
deriving DecidableEq

/-- `createOMPLConstraint` (ompl_constraints.cpp lines 393-453). The outer
`Option` is an exception escaping from `init` (an `.at()` on a missing
message field); the inner `Option` is the returned pointer (`none` =
`nullptr`); the string list collects the error-level diagnostics the call
logs (info/warn logs are not modelled). -/
def createOMPLConstraint (c : ConstraintsMsg) :
    Option (Option OmplConstraintObj × List String) :=
  let num_pos_con := c.position_constraints.length
  let num_ori_con := c.orientation_constraints.length
  if 0 < num_pos_con ∧ 0 < num_ori_con then
    some (none, ["Combining position and orientation constraints not implemented yet."])
  else if 0 < num_pos_con then
    if c.name = "use_equality_constraints" then
      match EqualityPositionConstraint.parseConstraintMsg c with
      | some (p, errs) => some (some (OmplConstraintObj.equalityPosition p), errs)
      | none => none
    else if c.name = "linear_system_constraints" then
      match LinearSystemPositionConstraint.parseConstraintMsg c with
      | some (p, errs) => some (some (OmplConstraintObj.linearSystemPosition p), errs)
      | none => none
    else
      match PositionConstraint.parseConstraintMsg c with
      | some p => some (some (OmplConstraintObj.boundedPosition p), [])
      | none => none
  else if 0 < num_ori_con then
    match OrientationConstraint.parseConstraintMsg c with
    | some p => some (some (OmplConstraintObj.orientation p),
        ["Orientation constraints are not yet supported."])
    | none => none
  else
    some (none, ["No path constraints found in planning request."])

lemma createOMPLConstraint_both (c : ConstraintsMsg)
    (h1 : c.position_constraints ≠ []) (h2 : c.orientation_constraints ≠ []) :
    createOMPLConstraint c
      = some (none, ["Combining position and orientation constraints not implemented yet."]) := by
  unfold createOMPLConstraint
  rw [if_pos ⟨List.length_pos.mpr h1, List.length_pos.mpr h2⟩]

lemma createOMPLConstraint_empty (c : ConstraintsMsg)
    (h1 : c.position_constraints = []) (h2 : c.orientation_constraints = []) :
    createOMPLConstraint c
      = some (none, ["No path constraints found in planning request."]) := by
  unfold createOMPLConstraint
  simp [h1, h2]

lemma createOMPLConstraint_equality (c : ConstraintsMsg)
    (p : ParsedEqualityPositionConstraint) (errs : List String)
    (h1 : c.position_constraints ≠ []) (h2 : c.orientation_constraints = [])
    (hname : c.name = "use_equality_constraints")
    (hp : EqualityPositionConstraint.parseConstraintMsg c = some (p, errs)) :
    createOMPLConstraint c
      = some (some (OmplConstraintObj.equalityPosition p), errs) := by
  unfold createOMPLConstraint
  simp [h2, List.length_pos.mpr h1, hname, hp]

lemma createOMPLConstraint_linear (c : ConstraintsMsg)
    (p : ParsedLinearSystemPositionConstraint) (errs : List String)
    (h1 : c.position_constraints ≠ []) (h2 : c.orientation_constraints = [])
    (hname : c.name = "linear_system_constraints")
    (hp : LinearSystemPositionConstraint.parseConstraintMsg c = some (p, errs)) :
    createOMPLConstraint c
      = some (some (OmplConstraintObj.linearSystemPosition p), errs) := by
  unfold createOMPLConstraint
  have hne : c.name ≠ "use_equality_constraints" := by
    rw [hname]
    decide
  simp [h2, List.length_pos.mpr h1, hname, hne, hp]

lemma createOMPLConstraint_bounded (c : ConstraintsMsg)
    (p : ParsedPositionConstraint)
    (h1 : c.position_constraints ≠ []) (h2 : c.orientation_constraints = [])
    (hname1 : c.name ≠ "use_equality_constraints")
    (hname2 : c.name ≠ "linear_system_constraints")
    (hp : PositionConstraint.parseConstraintMsg c = some p) :
    createOMPLConstraint c
      = some (some (OmplConstraintObj.boundedPosition p), []) := by
  unfold createOMPLConstraint
  simp [h2, List.length_pos.mpr h1, hname1, hname2, hp]

lemma createOMPLConstraint_orientation (c : ConstraintsMsg)
    (p : ParsedOrientationConstraint)
    (h1 : c.position_constraints = []) (h2 : c.orientation_constraints ≠ [])
    (hp : OrientationConstraint.parseConstraintMsg c = some p) :
    createOMPLConstraint c
      = some (some (OmplConstraintObj.orientation p),
          ["Orientation constraints are not yet supported."]) := by
  unfold createOMPLConstraint
  simp [h1, List.length_pos.mpr h2, hp]

/-- Example quaternion used by concrete test messages. -/
def exQuat : QuatMsg := ⟨0, 0, 0, 1⟩

/-- Example primitive pose used by concrete test messages. -/
def exPose : PoseMsg := ⟨⟨0, 0, 0⟩, exQuat⟩

/-- Second example primitive pose (the line end point). -/
def exPose2 : PoseMsg := ⟨⟨1, 2, 3⟩, exQuat⟩

/-- Example position constraint message with unit box extents and two
primitive poses. -/
def exPosCon : PositionConstraintMsg :=
  ⟨"tool0", ⟨[⟨[1, 1, 1]⟩], [exPose, exPose2]⟩⟩

/-- Example orientation constraint message with unit axis tolerances. -/
def exOriCon : OrientationConstraintMsg := ⟨"tool0", exQuat, 1, 1, 1⟩

/-- C7: the factory fails (null result) when both the position and the
orientation lists are non-empty, and when both are empty; when only the
position list is non-empty it returns an initialized
EqualityPositionConstraint for the name tag "use_equality_constraints", an
initialized LinearSystemPositionConstraint for "linear_system_constraints",
and an initialized bounded PositionConstraint for any other tag; when only
the orientation list is non-empty it still returns an initialized
OrientationConstraint, with the not-supported status surfaced as an
error-level diagnostic rather than as a failure. -/
theorem c7_createOMPLConstraint_dispatch (c : ConstraintsMsg) :
    (c.position_constraints ≠ [] → c.orientation_constraints ≠ [] →
      createOMPLConstraint c = some (none,
        ["Combining position and orientation constraints not implemented yet."]))
    ∧ (c.position_constraints = [] → c.orientation_constraints = [] →
      createOMPLConstraint c = some (none,
        ["No path constraints found in planning request."]))
    ∧ (∀ p errs, c.position_constraints ≠ [] → c.orientation_constraints = [] →
        c.name = "use_equality_constraints" →
        EqualityPositionConstraint.parseConstraintMsg c = some (p, errs) →
        createOMPLConstraint c
          = some (some (OmplConstraintObj.equalityPosition p), errs))
    ∧ (∀ p errs, c.position_constraints ≠ [] → c.orientation_constraints = [] →
        c.name = "linear_system_constraints" →
        LinearSystemPositionConstraint.parseConstraintMsg c = some (p, errs) →
        createOMPLConstraint c
          = some (some (OmplConstraintObj.linearSystemPosition p), errs))
    ∧ (∀ p, c.position_constraints ≠ [] → c.orientation_constraints = [] →
        c.name ≠ "use_equality_constraints" → c.name ≠ "linear_system_constraints" →
        PositionConstraint.parseConstraintMsg c = some p →
        createOMPLConstraint c
          = some (some (OmplConstraintObj.boundedPosition p), []))
    ∧ (∀ p, c.position_constraints = [] → c.orientation_constraints ≠ [] →
        OrientationConstraint.parseConstraintMsg c = some p →
        createOMPLConstraint c
          = some (some (OmplConstraintObj.orientation p),
              ["Orientation constraints are not yet supported."])) :=
  ⟨createOMPLConstraint_both c, createOMPLConstraint_empty c,
    fun p errs h1 h2 h3 h4 => createOMPLConstraint_equality c p errs h1 h2 h3 h4,
    fun p errs h1 h2 h3 h4 => createOMPLConstraint_linear c p errs h1 h2 h3 h4,
    fun p h1 h2 h3 h4 h5 => createOMPLConstraint_bounded c p h1 h2 h3 h4 h5,
    fun p h1 h2 h3 => createOMPLConstraint_orientation c p h1 h2 h3⟩

/-- Witness for C7: the six factory cases at concrete constraint messages,
with every hypothesis (list emptiness, name tags, parse successes)
discharged at those messages. -/
theorem c7_createOMPLConstraint_dispatch_witness :
    createOMPLConstraint ⟨"", [exPosCon], [exOriCon]⟩
      = some (none,
          ["Combining position and orientation constraints not implemented yet."])
    ∧ createOMPLConstraint ⟨"", [], []⟩
      = some (none, ["No path constraints found in planning request."])
    ∧ createOMPLConstraint ⟨"use_equality_constraints", [exPosCon], []⟩
      = some (some (OmplConstraintObj.equalityPosition
          ⟨[false, false, false], ⟨0, 0, 0⟩, exQuat, "tool0"⟩), [])
    ∧ createOMPLConstraint ⟨"linear_system_constraints", [exPosCon], []⟩
      = some (some (OmplConstraintObj.linearSystemPosition
          ⟨[false, false, false], ⟨0, 0, 0⟩, ⟨1, 2, 3⟩, exQuat, "tool0"⟩), [])
    ∧ createOMPLConstraint ⟨"bounded", [exPosCon], []⟩
      = some (some (OmplConstraintObj.boundedPosition
          ⟨[⟨Dbl.fin (-1 / 2), Dbl.fin (1 / 2)⟩, ⟨Dbl.fin (-1 / 2), Dbl.fin (1 / 2)⟩,
              ⟨Dbl.fin (-1 / 2), Dbl.fin (1 / 2)⟩], ⟨0, 0, 0⟩, exQuat, "tool0"⟩), [])
    ∧ createOMPLConstraint ⟨"", [], [exOriCon]⟩
      = some (some (OmplConstraintObj.orientation
          ⟨[⟨Dbl.fin (-1), Dbl.fin 1⟩, ⟨Dbl.fin (-1), Dbl.fin 1⟩,
              ⟨Dbl.fin (-1), Dbl.fin 1⟩], exQuat, "tool0"⟩),
          ["Orientation constraints are not yet supported."]) := by
  refine ⟨(c7_createOMPLConstraint_dispatch ⟨"", [exPosCon], [exOriCon]⟩).1
      (by decide) (by decide),
    (c7_createOMPLConstraint_dispatch ⟨"", [], []⟩).2.1 rfl rfl,
    (c7_createOMPLConstraint_dispatch ⟨"use_equality_constraints", [exPosCon], []⟩).2.2.1
      _ _ (by decide) rfl rfl ?_,
    (c7_createOMPLConstraint_dispatch ⟨"linear_system_constraints", [exPosCon], []⟩).2.2.2.1
      _ _ (by decide) rfl rfl ?_,
    (c7_createOMPLConstraint_dispatch ⟨"bounded", [exPosCon], []⟩).2.2.2.2.1
      _ (by decide) rfl (by decide) (by decide) ?_,
    (c7_createOMPLConstraint_dispatch ⟨"", [], [exOriCon]⟩).2.2.2.2.2
      _ rfl (by decide) ?_⟩
  · norm_num [EqualityPositionConstraint.parseConstraintMsg, markConstrainedDims,
      equality_constraint_threshold, constraint_projection_tolerance, exPosCon,
      exPose, exPose2]
  · norm_num [LinearSystemPositionConstraint.parseConstraintMsg, markConstrainedDims,
      equality_constraint_threshold, constraint_projection_tolerance, exPosCon,
      exPose, exPose2]
  · norm_num [PositionConstraint.parseConstraintMsg, positionConstraintMsgToBoundVector,
      sentinelToInf, Dbl.neg, Dbl.half, exPosCon, exPose, exPose2]
  · norm_num [OrientationConstraint.parseConstraintMsg,
      orientationConstraintMsgToBoundVector, sentinelToInf, Dbl.neg, exOriCon]

lemma markConstrainedDims_errs_ne_nil (dims : List ℚ) :
    ∀ (i : ℕ) (mask : List Bool) (errs : List String)
      (mask2 : List Bool) (errs2 : List String),
      markConstrainedDims dims i mask errs = some (mask2, errs2) →
      ((∃ d ∈ dims, d < constraint_projection_tolerance) ∨ errs ≠ []) →
      errs2 ≠ [] := by
  induction dims with
  | nil =>
    intro i mask errs mask2 errs2 h hd
    unfold markConstrainedDims at h
    injection h with h
    injection h with h1 h2
    rcases hd with ⟨d, hd, -⟩ | hne
    · exact absurd hd (List.not_mem_nil d)
    · rw [← h2]
      exact hne
  | cons d rest ih =>
    intro i mask errs mask2 errs2 h hd
    unfold markConstrainedDims at h
    by_cases h1 : d < equality_constraint_threshold
    · rw [if_pos h1] at h
      by_cases h3 : i < mask.length
      · rw [if_pos h3] at h
        by_cases h2 : d < constraint_projection_tolerance
        · rw [if_pos h2] at h
          exact ih (i + 1) _ _ mask2 errs2 h (Or.inr (by simp))
        · rw [if_neg h2] at h
          refine ih (i + 1) _ _ mask2 errs2 h ?_
          rcases hd with ⟨e, he, hlt⟩ | hne
          · rcases List.mem_cons.mp he with rfl | hmem
            · exact absurd hlt h2
            · exact Or.inl ⟨e, hmem, hlt⟩
          · exact Or.inr hne
      · rw [if_neg h3] at h
        exact absurd h (by simp)
    · rw [if_neg h1] at h
      refine ih (i + 1) _ _ mask2 errs2 h ?_
      rcases hd with ⟨e, he, hlt⟩ | hne
      · rcases List.mem_cons.mp he with rfl | hmem
        · refine absurd (lt_trans hlt ?_) h1
          norm_num [constraint_projection_tolerance, equality_constraint_threshold]
        · exact Or.inl ⟨e, hmem, hlt⟩
      · exact Or.inr hne

/-- C8 as stated is refuted at a concrete description: an
equality-classified extent (0) below the evaluation tolerance does not
fail construction; the factory hands back an initialized
EqualityPositionConstraint, with the condition only logged as an
error-level diagnostic. -/
theorem c8_counterexample_initialized_constraint_returned :
    createOMPLConstraint ⟨"use_equality_constraints",
        [⟨"tool0", ⟨[⟨[0, 1, 1]⟩], [exPose]⟩⟩], []⟩
      = some (some (OmplConstraintObj.equalityPosition
          ⟨[true, false, false], ⟨0, 0, 0⟩, exQuat, "tool0"⟩),
          [dimension_tolerance_error]) := by
  norm_num [createOMPLConstraint, EqualityPositionConstraint.parseConstraintMsg,
    markConstrainedDims, equality_constraint_threshold,
    constraint_projection_tolerance, exPose, exQuat]

/-- C8 amended: when some extent of the first primitive is below the
evaluation tolerance, initialization of an equality-style constraint
detects it and emits an error-level diagnostic, but the constraint is
nevertheless initialized and handed back by the factory (no fail-fast). -/
lemma equality_parse_sub_tolerance_errs (c : ConstraintsMsg)
    (p : ParsedEqualityPositionConstraint) (errs : List String)
    (hparse : EqualityPositionConstraint.parseConstraintMsg c = some (p, errs))
    (hbad : ∃ pc ∈ c.position_constraints[0]?,
        ∃ prim ∈ pc.constraint_region.primitives[0]?,
          ∃ d ∈ prim.dimensions, d < constraint_projection_tolerance) :
    errs ≠ [] := by
  obtain ⟨pc, hpc, prim, hprim, d, hd, hlt⟩ := hbad
  rw [Option.mem_def] at hpc hprim
  unfold EqualityPositionConstraint.parseConstraintMsg at hparse
  rw [hpc] at hparse
  simp only [Option.bind_eq_bind, Option.some_bind] at hparse
  rw [hprim] at hparse
  simp only [Option.bind_eq_bind, Option.some_bind] at hparse
  rcases hm : markConstrainedDims prim.dimensions 0 [false, false, false] [] with - | me
  · rw [hm] at hparse
    simp at hparse
  · rw [hm] at hparse
    simp only [Option.bind_eq_bind, Option.some_bind] at hparse
    rcases hpose : pc.constraint_region.primitive_poses[0]? with - | pose
    · rw [hpose] at hparse
      simp at hparse
    · rw [hpose] at hparse
      simp only [Option.bind_eq_bind, Option.some_bind, Option.pure_def, Option.some.injEq, Prod.mk.injEq] at hparse
      rw [← hparse.2]
      exact markConstrainedDims_errs_ne_nil prim.dimensions 0 [false, false, false]
        [] me.1 me.2 (by rw [hm]) (Or.inl ⟨d, hd, hlt⟩)

lemma linear_parse_sub_tolerance_errs (c : ConstraintsMsg)
    (p : ParsedLinearSystemPositionConstraint) (errs : List String)
    (hparse : LinearSystemPositionConstraint.parseConstraintMsg c = some (p, errs))
    (hbad : ∃ pc ∈ c.position_constraints[0]?,
        ∃ prim ∈ pc.constraint_region.primitives[0]?,
          ∃ d ∈ prim.dimensions, d < constraint_projection_tolerance) :
    errs ≠ [] := by
  obtain ⟨pc, hpc, prim, hprim, d, hd, hlt⟩ := hbad
  rw [Option.mem_def] at hpc hprim
  unfold LinearSystemPositionConstraint.parseConstraintMsg at hparse
  rw [hpc] at hparse
  simp only [Option.bind_eq_bind, Option.some_bind] at hparse
  rw [hprim] at hparse
  simp only [Option.bind_eq_bind, Option.some_bind] at hparse
  rcases hm : markConstrainedDims prim.dimensions 0 [false, false, false] [] with - | me
  · rw [hm] at hparse
    simp at hparse
  · rw [hm] at hparse
    simp only [Option.bind_eq_bind, Option.some_bind] at hparse
    rcases hpose : pc.constraint_region.primitive_poses[0]? with - | pose0
    · rw [hpose] at hparse
      simp at hparse
    · rw [hpose] at hparse
      simp only [Option.bind_eq_bind, Option.some_bind] at hparse
      rcases hpose1 : pc.constraint_region.primitive_poses[1]? with - | pose1
      · rw [hpose1] at hparse
        simp at hparse
      · rw [hpose1] at hparse
        simp only [Option.bind_eq_bind, Option.some_bind, Option.pure_def, Option.some.injEq, Prod.mk.injEq] at hparse
        rw [← hparse.2]
        exact markConstrainedDims_errs_ne_nil prim.dimensions 0 [false, false, false]
          [] me.1 me.2 (by rw [hm]) (Or.inl ⟨d, hd, hlt⟩)

/-- C8 amended: for either equality-style variant
(EqualityPositionConstraint and LinearSystemPositionConstraint), when some
extent of the first primitive is below the evaluation tolerance,
initialization detects it and emits an error-level diagnostic, but the
constraint is nevertheless initialized and handed back by the factory (no
fail-fast, no distinguishable error to the caller). -/
theorem c8_amended_sub_tolerance_only_logged (c : ConstraintsMsg)
    (hori : c.orientation_constraints = [])
    (hbad : ∃ pc ∈ c.position_constraints[0]?,
        ∃ prim ∈ pc.constraint_region.primitives[0]?,
          ∃ d ∈ prim.dimensions, d < constraint_projection_tolerance) :
    (∀ p errs, c.name = "use_equality_constraints" →
      EqualityPositionConstraint.parseConstraintMsg c = some (p, errs) →
      errs ≠ [] ∧ createOMPLConstraint c
        = some (some (OmplConstraintObj.equalityPosition p), errs))
    ∧ (∀ p errs, c.name = "linear_system_constraints" →
      LinearSystemPositionConstraint.parseConstraintMsg c = some (p, errs) →
      errs ≠ [] ∧ createOMPLConstraint c
        = some (some (OmplConstraintObj.linearSystemPosition p), errs)) := by
  have hpos : c.position_constraints ≠ [] := by
    obtain ⟨pc, hpc, -⟩ := hbad
    rw [Option.mem_def] at hpc
    intro hnil
    rw [hnil] at hpc
    simp at hpc
  constructor
  · intro p errs hname hparse
    exact ⟨equality_parse_sub_tolerance_errs c p errs hparse hbad,
      createOMPLConstraint_equality c p errs hpos hori hname hparse⟩
  · intro p errs hname hparse
    exact ⟨linear_parse_sub_tolerance_errs c p errs hparse hbad,
      createOMPLConstraint_linear c p errs hpos hori hname hparse⟩

/-- Witness for C8 amended at concrete sub-tolerance descriptions for both
equality-style variants (box extents [0, 1, 1], extent 0 below the
tolerance), with all hypotheses discharged there. -/
theorem c8_amended_sub_tolerance_only_logged_witness :
    ([dimension_tolerance_error] ≠ ([] : List String)
      ∧ createOMPLConstraint ⟨"use_equality_constraints",
          [⟨"tool0", ⟨[⟨[0, 1, 1]⟩], [exPose]⟩⟩], []⟩
        = some (some (OmplConstraintObj.equalityPosition
            ⟨[true, false, false], ⟨0, 0, 0⟩, exQuat, "tool0"⟩),
            [dimension_tolerance_error]))
    ∧ ([dimension_tolerance_error] ≠ ([] : List String)
      ∧ createOMPLConstraint ⟨"linear_system_constraints",
          [⟨"tool0", ⟨[⟨[0, 1, 1]⟩], [exPose, exPose2]⟩⟩], []⟩
        = some (some (OmplConstraintObj.linearSystemPosition
            ⟨[true, false, false], ⟨0, 0, 0⟩, ⟨1, 2, 3⟩, exQuat, "tool0"⟩),
            [dimension_tolerance_error])) := by
  constructor
  · exact (c8_amended_sub_tolerance_only_logged
      ⟨"use_equality_constraints", [⟨"tool0", ⟨[⟨[0, 1, 1]⟩], [exPose]⟩⟩], []⟩
      rfl
      ⟨⟨"tool0", ⟨[⟨[0, 1, 1]⟩], [exPose]⟩⟩, rfl, ⟨[0, 1, 1]⟩, rfl, 0,
        by norm_num, by norm_num [constraint_projection_tolerance]⟩).1
      _ _ rfl
      (by norm_num [EqualityPositionConstraint.parseConstraintMsg, markConstrainedDims,
        equality_constraint_threshold, constraint_projection_tolerance, exPose, exQuat])
  · exact (c8_amended_sub_tolerance_only_logged
      ⟨"linear_system_constraints", [⟨"tool0", ⟨[⟨[0, 1, 1]⟩], [exPose, exPose2]⟩⟩], []⟩
      rfl
      ⟨⟨"tool0", ⟨[⟨[0, 1, 1]⟩], [exPose, exPose2]⟩⟩, rfl, ⟨[0, 1, 1]⟩, rfl, 0,
        by norm_num, by norm_num [constraint_projection_tolerance]⟩).2
      _ _ rfl
      (by norm_num [LinearSystemPositionConstraint.parseConstraintMsg, markConstrainedDims,
        equality_constraint_threshold, constraint_projection_tolerance, exPose, exPose2, exQuat])

/-- The top three (translational) rows of the 6×N geometric Jacobian,
`robotGeometricJacobian(x).topRows(3)` (ompl_constraints.cpp lines 167,
236, 311). -/
def topRows3 {n : ℕ} (J : Matrix (Fin 6) (Fin n) ℚ) : Matrix (Fin 3) (Fin n) ℚ :=
  Matrix.of fun i j => J (Fin.castLE (by norm_num) i) j

/-- `EqualityPositionConstraint::function` (ompl_constraints.cpp lines
218-230): the target-frame error `R_target^T (p_actual − p_target)` is
emitted raw on constrained dimensions and 0 on free dimensions. The
forward-kinematics translation and the rotation matrix of the stored target
quaternion come from the external collaborators (MoveIt robot state, Eigen),
so they are parameters. -/
def EqualityPositionConstraint.function (mask : List Bool)
    (R : Matrix (Fin 3) (Fin 3) ℚ) (target fkTranslation : Fin 3 → ℚ) :
    Fin 3 → ℚ :=
  let error := R.transpose.mulVec (fkTranslation - target)
  fun dim => if mask.getD dim.val false then error dim else 0

/-- `EqualityPositionConstraint::jacobian` (ompl_constraints.cpp lines
232-242): the output is zeroed, then constrained rows are copied from
`R_target^T` times the translational Jacobian. -/
def EqualityPositionConstraint.jacobian (mask : List Bool)
    (R : Matrix (Fin 3) (Fin 3) ℚ) {n : ℕ} (geoJac : Matrix (Fin 6) (Fin n) ℚ) :
    Matrix (Fin 3) (Fin n) ℚ :=
  let jac := R.transpose * topRows3 geoJac
  Matrix.of fun dim j => if mask.getD dim.val false then jac dim j else 0

/-- C3: for every initialized EqualityPositionConstraint, `function`
emits exactly the i-th component of the target-frame error
`R_target^T (p_actual − p_target)` on dimensions classified as constrained
and exactly 0 on free dimensions (no penalty or threshold applied), and
`jacobian` emits row i of `R_target^T` times the translational Jacobian on
constrained dimensions and an all-zero row on free dimensions. -/
theorem c3_equality_function_jacobian (n : ℕ) (mask : List Bool)
    (R : Matrix (Fin 3) (Fin 3) ℚ) (target fkTranslation : Fin 3 → ℚ)
    (geoJac : Matrix (Fin 6) (Fin n) ℚ) (dim : Fin 3) :
    (mask.getD dim.val false = true →
      EqualityPositionConstraint.function mask R target fkTranslation dim
        = R.transpose.mulVec (fkTranslation - target) dim)
    ∧ (mask.getD dim.val false = false →
      EqualityPositionConstraint.function mask R target fkTranslation dim = 0)
    ∧ (mask.getD dim.val false = true → ∀ j,
      EqualityPositionConstraint.jacobian mask R geoJac dim j
        = (R.transpose * topRows3 geoJac) dim j)
    ∧ (mask.getD dim.val false = false → ∀ j,
      EqualityPositionConstraint.jacobian mask R geoJac dim j = 0) := by
  refine ⟨?_, ?_, ?_, ?_⟩ <;> intro h <;>
    simp only [List.getD_eq_getElem?_getD] at h
  · simp [EqualityPositionConstraint.function, h]
  · simp [EqualityPositionConstraint.function, h]
  · intro j
    simp [EqualityPositionConstraint.jacobian, h]
  · intro j
    simp [EqualityPositionConstraint.jacobian, h]

/-- Witness for C3 with only the y dimension constrained, identity target
orientation, target at the origin and actual position (1, 2, 3): the
constrained dimension emits the raw error component, the free dimension
emits exactly 0, and likewise for the Jacobian rows. -/
theorem c3_equality_function_jacobian_witness :
    EqualityPositionConstraint.function [false, true, false]
        (1 : Matrix (Fin 3) (Fin 3) ℚ) ![0, 0, 0] ![1, 2, 3] 1
      = (1 : Matrix (Fin 3) (Fin 3) ℚ).transpose.mulVec (![1, 2, 3] - ![0, 0, 0]) 1
    ∧ EqualityPositionConstraint.function [false, true, false]
        (1 : Matrix (Fin 3) (Fin 3) ℚ) ![0, 0, 0] ![1, 2, 3] 0 = 0
    ∧ EqualityPositionConstraint.jacobian [false, true, false]
        (1 : Matrix (Fin 3) (Fin 3) ℚ) (0 : Matrix (Fin 6) (Fin 1) ℚ) 1 0
      = ((1 : Matrix (Fin 3) (Fin 3) ℚ).transpose
          * topRows3 (0 : Matrix (Fin 6) (Fin 1) ℚ)) 1 0
    ∧ EqualityPositionConstraint.jacobian [false, true, false]
        (1 : Matrix (Fin 3) (Fin 3) ℚ) (0 : Matrix (Fin 6) (Fin 1) ℚ) 0 0 = 0 := by
  have h1 := c3_equality_function_jacobian 1 [false, true, false]
    (1 : Matrix (Fin 3) (Fin 3) ℚ) ![0, 0, 0] ![1, 2, 3]
    (0 : Matrix (Fin 6) (Fin 1) ℚ) 1
  have h0 := c3_equality_function_jacobian 1 [false, true, false]
    (1 : Matrix (Fin 3) (Fin 3) ℚ) ![0, 0, 0] ![1, 2, 3]
    (0 : Matrix (Fin 6) (Fin 1) ℚ) 0
  exact ⟨h1.1 (by decide), h0.2.1 (by decide), h1.2.2.1 (by decide) 0,
    h0.2.2.2 (by decide) 0⟩

/-- The declared output dimension of every constraint variant: the
`num_cons_ = 3` default of the `BaseConstraint` constructor (header lines
119-120), used by the factory for all four variants. -/
def BaseConstraint.defaultCoDimension : ℕ := 3

/-- `LinearSystemPositionConstraint::function` (ompl_constraints.cpp lines
294-305): projects the link position into the target frame and assigns the
two cross-product-determinant residuals to the output (`out = residual;`
with a two-element vector). The returned list is the residual actually
written. -/
def LinearSystemPositionConstraint.function
    (p : ParsedLinearSystemPositionConstraint) (R : Matrix (Fin 3) (Fin 3) ℚ)
    (fkTranslation : Fin 3 → ℚ) : List ℚ :=
  let cartesianPosition := R.transpose.mulVec fkTranslation
  [(p.end_position.x - p.start_position.x) * (cartesianPosition 1 - p.start_position.y)
      - (p.end_position.y - p.start_position.y) * (cartesianPosition 0 - p.start_position.x),
    (p.end_position.y - p.start_position.y) * (cartesianPosition 2 - p.start_position.z)
      - (p.end_position.z - p.start_position.z) * (cartesianPosition 1 - p.start_position.y)]

/-- Eigen dynamic matrix modelled with explicit dimensions and explicitly
uninitialized (`none`) entries. -/
structure MatrixXd where
  rows : ℕ
  cols : ℕ
  entry : ℕ → ℕ → Option ℚ

/-- A declared r×c dynamic matrix, entries uninitialized;
`Eigen::MatrixXd m;` is `MatrixXd.uninit 0 0`. -/
def MatrixXd.uninit (r c : ℕ) : MatrixXd := ⟨r, c, fun _ _ => none⟩

/-- Coefficient write `m(i, j) = v`: an out-of-range index is the error
branch (an assertion failure / undefined behaviour in Eigen). -/
def MatrixXd.set (m : MatrixXd) (i j : ℕ) (v : ℚ) : Except String MatrixXd :=
  if i < m.rows ∧ j < m.cols then
    Except.ok ⟨m.rows, m.cols, fun a b => if a = i ∧ b = j then some v else m.entry a b⟩
  else Except.error "index out of range"

/-- The exact element-write sequence performed by
`LinearSystemPositionConstraint::jacobian` on
`dresidual_dcartesianPosition` (ompl_constraints.cpp lines 313-324),
started from the matrix `m0` held by the local variable: (0,0), (1,0),
then (0,1) and (1,1) twice each — the last two writes carry the values the
adjacent comments label as the z-column entries. -/
def linearSystemJacobianDresidualWrites (m0 : MatrixXd) (s e : Point3) :
    Except String MatrixXd := do
  let m1 ← m0.set 0 0 (s.y - e.y)
  let m2 ← m1.set 1 0 0
  let m3 ← m2.set 0 1 (e.x - s.x)
  let m4 ← m3.set 1 1 (s.z - e.z)
  let m5 ← m4.set 0 1 0
  let m6 ← m5.set 1 1 (e.y - s.y)
  pure m6

/-- The matrix `LinearSystemPositionConstraint::jacobian` actually builds:
`Eigen::MatrixXd dresidual_dcartesianPosition;` (line 312) declares a 0×0
dynamic matrix, and the writes follow. -/
def LinearSystemPositionConstraint.dresidualMatrix
    (p : ParsedLinearSystemPositionConstraint) : Except String MatrixXd :=
  linearSystemJacobianDresidualWrites (MatrixXd.uninit 0 0)
    p.start_position p.end_position

/-- Modelled from the spec (comparandum for C4): the true 2×3 derivative of
the two line residuals with respect to Cartesian position — row 0 is
[start.y − end.y, end.x − start.x, 0], row 1 is [0, start.z − end.z,
end.y − start.y]. -/
def specLinearSystemDresidual (s e : Point3) : Fin 2 → Fin 3 → ℚ :=
  ![![s.y - e.y, e.x - s.x, 0], ![0, s.z - e.z, e.y - s.y]]

/-- C10 is refuted (code bug): the element writes of
`LinearSystemPositionConstraint::jacobian` do not stay inside the allocated
dimensions — the local matrix is declared 0×0 and never resized, so already
the first write (0,0) takes the out-of-range error branch, for every
start/end position. -/
theorem c10_dresidual_write_out_of_range (p : ParsedLinearSystemPositionConstraint) :
    LinearSystemPositionConstraint.dresidualMatrix p
      = Except.error "index out of range" := rfl

/-- C4 is refuted (code bug): even granting a pre-allocated 2×3 matrix, the
written entries disagree with the true derivative of the residuals. With
start = (0,0,0) and end = (1,2,3): entry (0,1) ends up 0 (overwritten by
the write the source comments label d residual[0] / d z) where the true
derivative has end.x − start.x = 1; entry (1,1) ends up end.y − start.y = 2
where the true derivative has start.z − end.z = −3; and column 2 is never
written at all. -/
theorem c4_linear_system_jacobian_diverges :
    ∃ m : MatrixXd,
      linearSystemJacobianDresidualWrites (MatrixXd.uninit 2 3)
          (Point3.mk 0 0 0) (Point3.mk 1 2 3) = Except.ok m
      ∧ m.entry 0 1 = some 0
      ∧ m.entry 1 1 = some 2
      ∧ m.entry 0 2 = none
      ∧ m.entry 1 2 = none
      ∧ specLinearSystemDresidual (Point3.mk 0 0 0) (Point3.mk 1 2 3) 0 1 = 1
      ∧ specLinearSystemDresidual (Point3.mk 0 0 0) (Point3.mk 1 2 3) 1 1 = -3
      ∧ specLinearSystemDresidual (Point3.mk 0 0 0) (Point3.mk 1 2 3) 0 2 = 0 := by
  refine ⟨_, rfl, ?_, ?_, ?_, ?_, ?_, ?_, ?_⟩ <;>
    norm_num [MatrixXd.set, MatrixXd.uninit, specLinearSystemDresidual]

/-- C9 is refuted for the linear-system variant (code bug): the factory
constructs it with the default declared co-dimension 3, but its `function`
override writes a 2-entry residual, for every initialized constraint and
joint configuration. -/
theorem c9_linear_system_codimension_mismatch
    (p : ParsedLinearSystemPositionConstraint) (R : Matrix (Fin 3) (Fin 3) ℚ)
    (fkTranslation : Fin 3 → ℚ) :
    (LinearSystemPositionConstraint.function p R fkTranslation).length = 2
    ∧ BaseConstraint.defaultCoDimension = 3
    ∧ (LinearSystemPositionConstraint.function p R fkTranslation).length
        ≠ BaseConstraint.defaultCoDimension := by
  refine ⟨rfl, rfl, ?_⟩
  simp [LinearSystemPositionConstraint.function, BaseConstraint.defaultCoDimension]

/-- Cross-product (skew-symmetric) matrix of an axis, as assembled by
`angularVelocityToAngleAxis` (header line 434). The orientation math uses
real scalars since the source computes with `std::sin` / `std::cos`. -/
def skewMatrix (axis : Fin 3 → ℝ) : Matrix (Fin 3) (Fin 3) ℝ :=
  Matrix.of ![![0, -axis 2, axis 1], ![axis 2, 0, -axis 0], ![-axis 1, axis 0, 0]]

open scoped Classical in
/-- Division with the IEEE division-by-zero made an explicit error branch:
a zero denominator makes the source produce NaN or ±Inf entries, which is
exactly the outcome claim C5 forbids, so the embedding flags it as `none`. -/
noncomputable def checkedDiv (a b : ℝ) : Option ℝ :=
  if b = 0 then none else some (a / b)

/-- `angularVelocityToAngleAxis` (header lines 428-442) with its two
divisions checked: `t = |angle|`, `r_skew = angle * skew(axis)`,
`C = 1 - 0.5 * t * sin(t) / (1 - cos(t))`, and the result
`I - 0.5 * r_skew + r_skew * r_skew / (t * t) * C`. The denominators
`1 - cos(t)` and `t * t` carry no guard in the source. -/
noncomputable def angularVelocityToAngleAxisChecked (angle : ℝ) (axis : Fin 3 → ℝ) :
    Option (Matrix (Fin 3) (Fin 3) ℝ) :=
  (checkedDiv (0.5 * |angle| * Real.sin |angle|) (1 - Real.cos |angle|)).bind fun q =>
    (checkedDiv 1 (|angle| * |angle|)).bind fun inv_t2 =>
      some (1 - (0.5 : ℝ) • (angle • skewMatrix axis)
        + (inv_t2 * (1 - q)) • ((angle • skewMatrix axis) * (angle • skewMatrix axis)))

/-- `OrientationConstraint::calcErrorJacobian` (ompl_constraints.cpp lines
352-357): `-angularVelocityToAngleAxis(aa.angle(), aa.axis())` times the
bottom three (rotational) rows of the geometric Jacobian. The angle-axis
decomposition of the orientation difference and the Jacobian rows are
produced by the external collaborators (Eigen, MoveIt robot state), so
they are parameters. -/
noncomputable def OrientationConstraint.calcErrorJacobianChecked {n : ℕ}
    (angle : ℝ) (axis : Fin 3 → ℝ) (geoJacBottom : Matrix (Fin 3) (Fin n) ℝ) :
    Option (Matrix (Fin 3) (Fin n) ℝ) :=
  (angularVelocityToAngleAxisChecked angle axis).map fun E => (-E) * geoJacBottom

/-- C5 is refuted (code bug): at rotation angle θ = 0 — reached whenever the
actual link orientation equals the target, since Eigen's angle-axis
decomposition of the identity rotation returns angle 0 — the operator
divides by 1 − cos 0 = 0 and by 0², so `calcErrorJacobian` produces NaN
entries instead of the guarded finite matrix the claim requires, for every
axis and every Jacobian. -/
theorem c5_calc_error_jacobian_nan_at_zero_angle (n : ℕ) (axis : Fin 3 → ℝ)
    (geoJacBottom : Matrix (Fin 3) (Fin n) ℝ) :
    OrientationConstraint.calcErrorJacobianChecked 0 axis geoJacBottom = none := by
  simp [OrientationConstraint.calcErrorJacobianChecked,
    angularVelocityToAngleAxisChecked, checkedDiv]

end OmplInterface
